import Mathlib

/-
Verification of the checkpoint scheduling and prompt-serialization core of
the ScanSoftware device logger (src/main.py) against its natural-language
specification.

Modelling conventions:
- wall-clock timestamps (Python datetime values) are integers counting
  seconds; timedelta(seconds=k) is integer addition of k;
- the station registry (the process-wide dict `timers`) is an association
  list from station number to TimerData;
- the day's Excel worksheet is a list of data rows (worksheet row 2 is list
  index 0);
- Tk string variables and entry widgets are modelled by the strings the
  operator ends up supplying through them.
-/

set_option maxRecDepth 4000

namespace ScanSoftware

/-- Configured checkpoint offsets, from src/main.py: CHECKPOINTS = [20, 40]
(seconds). Functions below take the offset list as an explicit parameter so
that statements quantify over the configuration; this constant is the
concrete configuration of the source. -/
def CHECKPOINTS : List Nat := [20, 40]

/-- TimerData, from src/main.py lines 47-55: per-station timer state. -/
structure TimerData where
  serial : String
  station : Nat
  tech : String
  start : Int
  done_checks : Nat
  cancelled : Bool
  error : Bool
deriving Repr, DecidableEq

/-- TimerData.__init__: the constructor sets start to the current time and
zeroes the progress and flags. -/
def TimerData.create (serial : String) (station : Nat) (tech : String)
    (now : Int) : TimerData :=
  { serial := serial, station := station, tech := tech, start := now,
    done_checks := 0, cancelled := false, error := false }

/-- TimerData.next_delta, from src/main.py lines 57-61: None once all
checkpoints are done, otherwise seconds from now until
start + offsets[done_checks] (negative when overdue). -/
def next_delta (cps : List Nat) (td : TimerData) (now : Int) : Option Int :=
  if td.done_checks ≥ cps.length then none
  else some (td.start + (cps.getD td.done_checks 0 : Int) - now)

/-- A queued checkpoint event, the tuple
(serial, station, idx, scheduled time, tech) put on prompt_q by a firing
worker (src/main.py line 230). -/
structure Event where
  serial : String
  station : Nat
  idx : Nat
  sched : Int
  tech : String
deriving Repr, DecidableEq

/-- The delay a checkpoint worker sleeps before firing, from
src/main.py lines 231-232: worker number idx (1-based, from
enumerate(CHECKPOINTS, start=1)) sleeps CHECKPOINTS[idx-1] seconds. -/
def fireDelay (cps : List Nat) (idx : Nat) : Nat :=
  cps.getD (idx - 1) 0

/-- The scheduled time stamped into the event by the worker, from
src/main.py line 230: start + timedelta(seconds=sum(CHECKPOINTS[:idx])),
i.e. start plus the sum of the first idx offsets. -/
def eventSchedTime (start : Int) (cps : List Nat) (idx : Nat) : Int :=
  start + ((cps.take idx).sum : Int)

/-- The worker body at fire time, from src/main.py lines 228-230: if the
timer object is not cancelled, enqueue the checkpoint event; otherwise a
silent no-op. -/
def workerEvent (td : TimerData) (cps : List Nat) (idx : Nat) : Option Event :=
  if td.cancelled then none
  else some { serial := td.serial, station := td.station, idx := idx,
              sched := eventSchedTime td.start cps idx, tech := td.tech }

/-- The station registry: the process-wide dict `timers` (src/main.py
line 80), station number to TimerData. -/
abbrev Registry := List (Nat × TimerData)

/-- Dict lookup timers[st]. -/
def lookupTimer : Registry → Nat → Option TimerData
  | [], _ => none
  | (k, v) :: rest, st => if k = st then some v else lookupTimer rest st

/-- Dict assignment timers[station] = td (replace or add). -/
def insertTimer : Registry → Nat → TimerData → Registry
  | [], st, td => [(st, td)]
  | (k, v) :: rest, st, td =>
      if k = st then (st, td) :: rest else (k, v) :: insertTimer rest st td

/-- Dict removal timers.pop(st) (the entry, when present, is unique). -/
def removeTimer : Registry → Nat → Registry
  | [], _ => []
  | (k, v) :: rest, st => if k = st then rest else (k, v) :: removeTimer rest st

/-- start(), from src/main.py lines 242-252, after the input-validation
loop: if the registry holds a timer for the station that is neither
completed nor cancelled, show the Busy error and change nothing; otherwise
schedule() creates a fresh TimerData and stores it under the station.
Returns (busy?, resulting registry). -/
def startStation (cps : List Nat) (timers : Registry) (serial : String)
    (st : Nat) (tech : String) (now : Int) : Bool × Registry :=
  match lookupTimer timers st with
  | some td =>
      if td.done_checks < cps.length ∧ td.cancelled = false then (true, timers)
      else (false, insertTimer timers st (TimerData.create serial st tech now))
  | none => (false, insertTimer timers st (TimerData.create serial st tech now))

/-- Python str.zfill on the character list of a string: left-pad with '0'
up to the width, inserting the zeros after a leading sign character. -/
def zfillList (l : List Char) (w : Nat) : List Char :=
  if w ≤ l.length then l
  else match l with
    | [] => List.replicate w '0'
    | c :: rest =>
        if c = '+' ∨ c = '-' then
          c :: (List.replicate (w - l.length) '0' ++ rest)
        else List.replicate (w - l.length) '0' ++ l

/-- The numeric cell written by save(), src/main.py line 171: the f-string
e1.get().zfill(2) ++ "." ++ e2.get().zfill(2), built here directly on the
character lists of the two parts. -/
def formatDigit (w f : String) : String :=
  String.mk (zfillList w.data 2 ++ '.' :: zfillList f.data 2)

/-- The keystroke validator attached to the capture-step numeric entries,
src/main.py line 185: (P.isdigit() and len(P) <= 2) or P == ''. Because it
runs on every keystroke, the final content of a capture-step numeric entry
satisfies it. -/
def validDigitList (l : List Char) : Bool :=
  (decide (0 < l.length) && l.all Char.isDigit && decide (l.length ≤ 2))
    || decide (l = [])

/-- validDigitList on a string's characters. -/
def validDigit (s : String) : Bool := validDigitList s.data

/-- The spec-side shape of a persisted numeric cell: a zero-padded
two-digit "NN.NN" string (digit, digit, dot, digit, digit). -/
def isNNNNList : List Char → Bool
  | [a, b, c, d, e] =>
      a.isDigit && b.isDigit && (c == '.') && d.isDigit && e.isDigit
  | _ => false

/-- isNNNNList on a string's characters. -/
def isNNNN (s : String) : Bool := isNNNNList s.data

/-- The numeric review-step widgets, src/main.py lines 211-213, are plain
entry widgets with no validatecommand: any string can be entered at the
review step. -/
def reviewEntryAccepts (_s : String) : Bool := true

/-- The toggle review-step widget, src/main.py line 217, is a read-only
combobox whose only values are ON and OFF. -/
def reviewToggleAccepts (s : String) : Bool := s == "ON" || s == "OFF"

/-- The capture-step toggle default, src/main.py line 194:
tk.StringVar(value='ON'). -/
def toggleDefault : String := "ON"

/-- The contents of the six measurement widgets at save time, src/main.py
lines 158-162: four numeric fields held as (whole, fraction) string pairs
and two toggle fields held as strings. -/
structure FieldValues where
  voltage : String × String
  current : String × String
  clamp : String × String
  temperature : String × String
  controlLight : String
  loadBankLight : String
deriving Repr, DecidableEq

/-- The six measurement columns appended to the row by save(), src/main.py
lines 168-173, in field order: numeric fields formatted with formatDigit,
toggle fields written as-is. -/
def fieldCells (v : FieldValues) : List String :=
  [formatDigit v.voltage.1 v.voltage.2,
   formatDigit v.current.1 v.current.2,
   formatDigit v.clamp.1 v.clamp.2,
   formatDigit v.temperature.1 v.temperature.2,
   v.controlLight, v.loadBankLight]

/-- The fault test of save(), src/main.py line 175: any of the designated
binary-safety fields (Control Light, Load Bank Light) equals OFF. -/
def anyOff (v : FieldValues) : Bool :=
  v.controlLight == "OFF" || v.loadBankLight == "OFF"

/-- A persisted completed-check row, src/main.py lines 166-174: serial,
station, checkpoint index, scheduled time, actual time, lateness in
seconds, the six measurement cells, technician. The source renders the two
times as H:M:S strings; they are kept as raw second counts here. -/
structure Row where
  serial : String
  station : Nat
  idx : Nat
  sched : Int
  actual : Int
  lateness : Nat
  cells : List String
  tech : String
deriving Repr, DecidableEq

/-- The row built by save(), src/main.py lines 166-174, for an event and
the widget contents at commit time now; lateness is
abs(int((now - sched_time).total_seconds())). -/
def mkRow (e : Event) (v : FieldValues) (now : Int) : Row :=
  { serial := e.serial, station := e.station, idx := e.idx,
    sched := e.sched, actual := now, lateness := (now - e.sched).natAbs,
    cells := fieldCells v, tech := e.tech }

/-- The observable outcome of one popup flow (one dequeued checkpoint
event), src/main.py lines 145-223: whether the rescan prompt was shown,
the row appended by write_excel (none when no append happened), the
resulting registry, whether prompt_lock was released, and whether the
flow died with an uncaught KeyError. -/
structure FlowTrace where
  promptShown : Bool
  appended : Option Row
  timers : Registry
  lockReleased : Bool
  crashed : Bool
deriving Repr, DecidableEq

/-- The save() closure, src/main.py lines 165-178: builds the row, then
mutates timers[station] (error := anyOff, done_checks += 1), appends the
row and releases prompt_lock. When the station is no longer in the
registry, the lookup timers[station] raises KeyError before the append and
before the release, so the flow crashes with the lock still held. -/
def saveStep (timers : Registry) (e : Event) (v : FieldValues) (now : Int) :
    FlowTrace :=
  match lookupTimer timers e.station with
  | none =>
      { promptShown := true, appended := none, timers := timers,
        lockReleased := false, crashed := true }
  | some td =>
      { promptShown := true, appended := some (mkRow e v now),
        timers := insertTimer timers e.station
          { td with error := anyOff v, done_checks := td.done_checks + 1 },
        lockReleased := true, crashed := false }

/-- The popup body of prompt_user, src/main.py lines 146-178, run for one
dequeued event: acquire prompt_lock, beep, show the rescan prompt
(unconditionally — the queue consumer on line 234 performs no registry or
cancelled check between prompt_q.get() and prompt_user); if the rescanned
serial differs from the event's serial, show the mismatch error, release
the lock and stop with nothing written; otherwise run capture/review and
commit via saveStep. serialIn is the serial the operator rescans and v the
widget contents at commit time. -/
def runFlow (timers : Registry) (e : Event) (serialIn : String)
    (v : FieldValues) (now : Int) : FlowTrace :=
  if serialIn ≠ e.serial then
    { promptShown := true, appended := none, timers := timers,
      lockReleased := true, crashed := false }
  else saveStep timers e v now

/-- The two ways the operator can leave the review window, src/main.py
lines 204 and 220: the window-manager close action and the
Confirm and Save button. -/
inductive ReviewAction where
  | closeWindow
  | confirmSave
deriving Repr, DecidableEq

/-- The callback the review window binds to each leave action,
src/main.py lines 202-220: win.protocol('WM_DELETE_WINDOW', save) and
ttk.Button(..., command=save) both invoke the save() closure. -/
def reviewHandler (a : ReviewAction) :
    Registry → Event → FieldValues → Int → FlowTrace :=
  match a with
  | .closeWindow => saveStep
  | .confirmSave => saveStep

/-- The retraction loop of cancel(), src/main.py lines 261-262: iterate a
snapshot of the data rows with their original positions; whenever the
snapshot row's station cell matches, delete the row at that original
position in the current (already shifted) worksheet. List.eraseIdx is a
no-op past the end, as ws.delete_rows is past max_row. -/
def retractGo (orig : List (Nat × Row)) (st : Nat) (cur : List Row) :
    List Row :=
  match orig with
  | [] => cur
  | (i, row) :: rest =>
      retractGo rest st (if row.station = st then cur.eraseIdx i else cur)

/-- The full retraction of cancel() over the day's worksheet. -/
def retractAll (store : List Row) (st : Nat) : List Row :=
  retractGo store.enum st store

/-- cancel(), src/main.py lines 254-263, after selection and confirmation:
pop the station's timer (none models the KeyError when the station is not
in the registry), set its cancelled flag, and retract its rows from the
store. Returns the new registry, the new store, and the popped timer. -/
def cancelStation (timers : Registry) (store : List Row) (st : Nat) :
    Option (Registry × List Row × TimerData) :=
  match lookupTimer timers st with
  | none => none
  | some td =>
      some (removeTimer timers st, retractAll store st,
            { td with cancelled := true })

/-- Phase of one popup thread spawned by prompt_user: blocked in
prompt_lock.acquire(), or holding the lock and running the interactive
verify/capture/review/commit flow. -/
inductive Phase where
  | waiting
  | interacting
deriving Repr, DecidableEq

/-- True exactly on the interacting phase. -/
def isInter : Phase → Bool
  | .interacting => true
  | .waiting => false

/-- Number of flows currently holding the serializer (in the interactive
verify/capture/review/commit section). -/
def interCount (fl : List (Event × Phase)) : Nat :=
  fl.countP (fun p => isInter p.2)

/-- State of the scheduler/serializer machinery of src/main.py lines
80-82 and 223-234: the log of all events ever put on prompt_q (enqueue
order), the current queue contents, the log of dequeued events (dequeue
order), the spawned popup threads with their phase, the number of free
prompt_lock tokens (threading.Semaphore(1)), and the log of events whose
flow acquired the lock, in acquisition order (service order). -/
structure SerState where
  enqueued : List Event
  queue : List Event
  dequeued : List Event
  flows : List (Event × Phase)
  sem : Nat
  served : List Event
deriving Repr, DecidableEq

/-- Initial state: empty queue, one semaphore token. -/
def initSer : SerState :=
  { enqueued := [], queue := [], dequeued := [], flows := [], sem := 1,
    served := [] }

/-- One step of the scheduler/serializer system:
- enqueue: a firing worker puts an event at the back of prompt_q
  (src/main.py line 230);
- dequeue: the single consumer thread (line 234) takes the front event and
  prompt_user spawns a popup thread for it, which starts in the waiting
  phase (lines 145-147, 223) — prompt_user returns without waiting;
- acquire: any spawned waiting popup thread, chosen nondeterministically
  by the OS scheduler, passes prompt_lock.acquire() when a token is free
  (line 147) and begins interacting;
- release: an interacting flow releases prompt_lock (line 152 or 178). -/
inductive SerStep : SerState → SerState → Prop where
  | enqueue (s : SerState) (e : Event) :
      SerStep s { s with enqueued := s.enqueued ++ [e],
                         queue := s.queue ++ [e] }
  | dequeue (s : SerState) (e : Event) (rest : List Event) :
      s.queue = e :: rest →
      SerStep s { s with queue := rest, dequeued := s.dequeued ++ [e],
                         flows := s.flows ++ [(e, Phase.waiting)] }
  | acquire (s : SerState) (l r : List (Event × Phase)) (e : Event) :
      0 < s.sem → s.flows = l ++ (e, Phase.waiting) :: r →
      SerStep s { s with flows := l ++ (e, Phase.interacting) :: r,
                         sem := s.sem - 1, served := s.served ++ [e] }
  | release (s : SerState) (l r : List (Event × Phase)) (e : Event) :
      s.flows = l ++ (e, Phase.interacting) :: r →
      SerStep s { s with flows := l ++ r, sem := s.sem + 1 }

/-- States reachable from the initial serializer state. -/
inductive SerReach : SerState → Prop where
  | init : SerReach initSer
  | step {s s' : SerState} : SerReach s → SerStep s s' → SerReach s'

/-- Sample measurement values (all toggles ON), the section-8 example of
the spec. -/
def sampleVals : FieldValues :=
  { voltage := ("12", "34"), current := ("01", "20"), clamp := ("00", "05"),
    temperature := ("25", "00"), controlLight := "ON",
    loadBankLight := "ON" }

/-- Sample registration: serial SN1 at station 3 by Alice at time 0. -/
def sampleTimer : TimerData := TimerData.create "SN1" 3 "Alice" 0

/-- The first checkpoint event of the sample registration. -/
def sampleEvent : Event :=
  { serial := "SN1", station := 3, idx := 1, sched := 20, tech := "Alice" }

/-- Events of two different stations used in the serializer trace. -/
def evA : Event :=
  { serial := "SNA", station := 1, idx := 1, sched := 20, tech := "T" }

/-- Second station's event for the serializer trace. -/
def evB : Event :=
  { serial := "SNB", station := 2, idx := 1, sched := 20, tech := "T" }

/-- Trace state after enqueueing evA. -/
def c5s1 : SerState :=
  { enqueued := [evA], queue := [evA], dequeued := [], flows := [], sem := 1,
    served := [] }

/-- Trace state after enqueueing evB. -/
def c5s2 : SerState :=
  { enqueued := [evA, evB], queue := [evA, evB], dequeued := [], flows := [],
    sem := 1, served := [] }

/-- Trace state after the consumer dequeues evA and spawns its thread. -/
def c5s3 : SerState :=
  { enqueued := [evA, evB], queue := [evB], dequeued := [evA],
    flows := [(evA, Phase.waiting)], sem := 1, served := [] }

/-- Trace state after the consumer dequeues evB and spawns its thread. -/
def c5s4 : SerState :=
  { enqueued := [evA, evB], queue := [], dequeued := [evA, evB],
    flows := [(evA, Phase.waiting), (evB, Phase.waiting)], sem := 1,
    served := [] }

/-- Trace state after evB's thread wins the race for prompt_lock. -/
def c5s5 : SerState :=
  { enqueued := [evA, evB], queue := [], dequeued := [evA, evB],
    flows := [(evA, Phase.waiting), (evB, Phase.interacting)], sem := 0,
    served := [evB] }

/-- Trace state after evB's flow completes and releases prompt_lock. -/
def c5s6 : SerState :=
  { enqueued := [evA, evB], queue := [], dequeued := [evA, evB],
    flows := [(evA, Phase.waiting)], sem := 1, served := [evB] }

/-- Final trace state: evA's flow acquires the lock second, so service
order is [evB, evA] although enqueue order was [evA, evB]. -/
def c5s7 : SerState :=
  { enqueued := [evA, evB], queue := [], dequeued := [evA, evB],
    flows := [(evA, Phase.interacting)], sem := 0, served := [evB, evA] }

/-- Measurement values whose Control Light toggle reports a fault. -/
def valsOff : FieldValues :=
  { voltage := ("12", "34"), current := ("01", "20"), clamp := ("00", "05"),
    temperature := ("25", "00"), controlLight := "OFF",
    loadBankLight := "ON" }

/-- Second checkpoint event of the sample registration (scheduled time as
stamped by the source worker: start + sum of the first two offsets). -/
def sampleEvent2 : Event :=
  { serial := "SN1", station := 3, idx := 2, sched := 60, tech := "Alice" }

/-- Registry after the sample registration's first completed check, whose
Control Light was OFF. -/
def c7timers1 : Registry :=
  (runFlow [(3, sampleTimer)] sampleEvent "SN1" valsOff 21).timers

/-- Registry after the second completed check, all toggles ON. -/
def c7timers2 : Registry :=
  (runFlow c7timers1 sampleEvent2 "SN1" sampleVals 61).timers

/-- Measurement values containing a review-step edit that the capture
validator would have rejected: Voltage whole part "abc". -/
def badVals : FieldValues :=
  { voltage := ("abc", ""), current := ("01", "20"), clamp := ("00", "05"),
    temperature := ("25", "00"), controlLight := "ON",
    loadBankLight := "ON" }

/-- A committed first-checkpoint row for station 3. -/
def row3a : Row :=
  { serial := "SN1", station := 3, idx := 1, sched := 20, actual := 21,
    lateness := 1, cells := fieldCells sampleVals, tech := "Alice" }

/-- A committed second-checkpoint row for station 3, adjacent to row3a. -/
def row3b : Row :=
  { serial := "SN1", station := 3, idx := 2, sched := 60, actual := 62,
    lateness := 2, cells := fieldCells sampleVals, tech := "Alice" }

/-- A committed row for the unrelated station 5. -/
def row5c : Row :=
  { serial := "SN9", station := 5, idx := 1, sched := 20, actual := 20,
    lateness := 0, cells := fieldCells sampleVals, tech := "Bob" }

/-- Claim C1: the claim says the event delivered for the i-th offset
carries the absolute scheduled time start + offsets[i], so with offsets
[20, 40] the two events reference t0+20 and t0+40. The code stamps
start + sum(offsets[:idx]) instead: for checkpoint index 2 the worker
sleeps offsets[1] = 40 seconds (firing at t0+40, unchained as claimed) yet
stamps the event with scheduled time t0+60, not t0+40. -/
theorem c1_cumulative_sched_time :
    fireDelay [20, 40] 2 = 40 ∧
    eventSchedTime 0 [20, 40] 2 = (60 : Int) ∧
    eventSchedTime 0 [20, 40] 2 ≠ (0 : Int) + 40 ∧
    workerEvent (TimerData.create "SN1" 3 "Alice" 0) [20, 40] 2 =
      some { serial := "SN1", station := 3, idx := 2, sched := 60,
             tech := "Alice" } := by
  refine ⟨rfl, rfl, by decide, rfl⟩

/-- Claim C2: the claim says a checkpoint event whose station was
cancelled between enqueue and serve is re-checked and discarded at dequeue
time, producing no interactive prompt. The code has no such re-check: the
worker fires and enqueues the event while the station is live, the station
is then cancelled (registry left empty), and serving the stale event still
shows the rescan prompt; worse, when the operator rescans the matching
serial, the commit step's registry lookup fails (Python KeyError), so the
flow crashes with the serializer lock held and no record appended. -/
theorem c2_no_dequeue_recheck :
    workerEvent sampleTimer CHECKPOINTS 1 = some sampleEvent ∧
    (cancelStation [(3, sampleTimer)] [] 3).map (fun p => p.1) = some [] ∧
    (runFlow [] sampleEvent "SN1" sampleVals 21).promptShown = true ∧
    (runFlow [] sampleEvent "SN1" sampleVals 21).appended = none ∧
    (runFlow [] sampleEvent "SN1" sampleVals 21).crashed = true ∧
    (runFlow [] sampleEvent "SN1" sampleVals 21).lockReleased = false := by
  refine ⟨rfl, rfl, by decide, by decide, by decide, by decide⟩

/-- Claim C3: the claim says retraction removes every row whose station
matches, so after cancelling station 3 the store holds zero rows for 3.
The code deletes rows by original index while iterating a snapshot, so
with two adjacent rows for station 3 the second survives, and with a
station-5 row following them the station-5 row is deleted instead.
Cancellation still removes the timer from the registry and sets its
cancelled flag, and retraction is a no-op when no row matches. -/
theorem c3_retraction_misses_rows :
    retractAll [row3a, row3b] 3 = [row3b] ∧
    ((retractAll [row3a, row3b] 3).filter
      (fun r => r.station == 3)).length = 1 ∧
    retractAll [row3a, row3b, row5c] 3 = [row3b] ∧
    retractAll [row5c] 3 = [row5c] ∧
    cancelStation [(3, sampleTimer)] [row3a, row3b] 3 =
      some ([], [row3b], { sampleTimer with cancelled := true }) := by
  refine ⟨by decide, by decide, by decide, by decide, by decide⟩

/-- Claim C7 counterexample: the claim says that once a completed check
reports a fault the timer's error flag stays true for all later completed
checks. In the code save() overwrites the flag with the current check's
fault status: after a first check with Control Light OFF the flag is true,
but a second, fault-free completed check resets it to false. -/
theorem c7_error_flag_not_monotone :
    (lookupTimer c7timers1 3).map TimerData.error = some true ∧
    (lookupTimer c7timers1 3).map TimerData.done_checks = some 1 ∧
    (lookupTimer c7timers2 3).map TimerData.error = some false ∧
    (lookupTimer c7timers2 3).map TimerData.done_checks = some 2 := by
  refine ⟨by decide, by decide, by decide, by decide⟩

/-- Dict assignment followed by lookup of the same key yields the stored
timer. -/
theorem lookupTimer_insertTimer (timers : Registry) (st : Nat)
    (td : TimerData) :
    lookupTimer (insertTimer timers st td) st = some td := by
  induction timers with
  | nil => simp [insertTimer, lookupTimer]
  | cons p rest ih =>
      by_cases h : p.1 = st
      · simp [insertTimer, lookupTimer, h]
      · cases p with
        | mk k v => simp_all [insertTimer, lookupTimer]

/-- Claim C4: a Start attempt while the registry holds a non-terminal
timer for the station (not cancelled, done_checks below the offset count)
fails with Busy and leaves the registry unchanged; otherwise it succeeds
and registers a fresh timer for the station. -/
theorem c4_start_busy_iff (cps : List Nat) (timers : Registry)
    (serial : String) (st : Nat) (tech : String) (now : Int) :
    (startStation cps timers serial st tech now = (true, timers) ↔
      ∃ td, lookupTimer timers st = some td ∧
        td.done_checks < cps.length ∧ td.cancelled = false) ∧
    ((startStation cps timers serial st tech now).1 = false →
      (startStation cps timers serial st tech now).2 =
        insertTimer timers st (TimerData.create serial st tech now) ∧
      lookupTimer (startStation cps timers serial st tech now).2 st =
        some (TimerData.create serial st tech now)) := by
  rcases h : lookupTimer timers st with _ | td
  · constructor
    · constructor
      · intro hc
        simp [startStation, h] at hc
      · rintro ⟨td, htd, -, -⟩
        simp at htd
    · intro _
      refine ⟨by simp [startStation, h], ?_⟩
      simp [startStation, h, lookupTimer_insertTimer]
  · by_cases hb : td.done_checks < cps.length ∧ td.cancelled = false
    · constructor
      · constructor
        · intro _; exact ⟨td, rfl, hb.1, hb.2⟩
        · intro _; simp [startStation, h, hb]
      · intro hc
        simp [startStation, h, hb] at hc
    · constructor
      · constructor
        · intro hc
          simp [startStation, h, hb] at hc
        · rintro ⟨td', htd', h1, h2⟩
          cases htd'
          exact absurd ⟨h1, h2⟩ hb
      · intro _
        refine ⟨by simp [startStation, h, hb], ?_⟩
        simp [startStation, h, hb, lookupTimer_insertTimer]

/-- Claim C4 witness: starting station 3 on an empty registry is not Busy
and registers the fresh timer. -/
theorem c4_witness :
    lookupTimer
        (startStation CHECKPOINTS [] "SN1" 3 "Alice" 0).2 3 =
      some (TimerData.create "SN1" 3 "Alice" 0) :=
  ((c4_start_busy_iff CHECKPOINTS [] "SN1" 3 "Alice" 0).2 (by decide)).2

/-- Claim C6: when the rescanned serial differs from the event's serial
the flow is abandoned: the rescan prompt was shown, nothing is appended to
the store, the registry (hence done_checks) is unchanged, the serializer
lock is released, and the flow terminates normally. -/
theorem c6_mismatch_abandons (timers : Registry) (e : Event)
    (serialIn : String) (v : FieldValues) (now : Int)
    (h : serialIn ≠ e.serial) :
    runFlow timers e serialIn v now =
      { promptShown := true, appended := none, timers := timers,
        lockReleased := true, crashed := false } := by
  simp [runFlow, h]

/-- Claim C6 witness: a wrong rescan of the sample event abandons the
checkpoint with the registry intact and the lock released. -/
theorem c6_witness :
    runFlow [(3, sampleTimer)] sampleEvent "WRONG" sampleVals 21 =
      { promptShown := true, appended := none,
        timers := [(3, sampleTimer)], lockReleased := true,
        crashed := false } :=
  c6_mismatch_abandons [(3, sampleTimer)] sampleEvent "WRONG" sampleVals 21
    (by decide)

/-- Claim C8: next_delta is none exactly when done_checks has reached the
number of configured offsets; otherwise it is the signed number of seconds
from now until start + offsets[done_checks], negative when overdue. -/
theorem c8_next_delta_spec (cps : List Nat) (td : TimerData) (now : Int) :
    (next_delta cps td now = none ↔ cps.length ≤ td.done_checks) ∧
    (td.done_checks < cps.length →
      next_delta cps td now =
        some (td.start + (cps.getD td.done_checks 0 : Int) - now)) := by
  constructor
  · unfold next_delta
    split
    · simpa using by omega
    · simp only [ge_iff_le, not_le] at *
      constructor
      · intro hc; cases hc
      · intro hc; omega
  · intro h
    unfold next_delta
    rw [if_neg (by omega)]

/-- Claim C8 witness: the sample timer at wall-clock time 100 is overdue,
next_delta returning the negative duration to its first checkpoint. -/
theorem c8_witness :
    next_delta CHECKPOINTS sampleTimer 100 =
      some (sampleTimer.start +
        (CHECKPOINTS.getD sampleTimer.done_checks 0 : Int) - 100) ∧
    sampleTimer.start +
        (CHECKPOINTS.getD sampleTimer.done_checks 0 : Int) - 100 < 0 :=
  ⟨(c8_next_delta_spec CHECKPOINTS sampleTimer 100).2 (by decide),
   by decide⟩

/-- Claim C10: the review window binds the window-manager close action to
the same save() closure as the Confirm and Save button, and that commit
path appends the record (with lateness computed from the scheduled time),
sets the error flag, increments done_checks and releases the serializer
lock — once the review step is reached there is no abandoning path. -/
theorem c10_close_commits :
    (∀ a : ReviewAction, reviewHandler a = saveStep) ∧
    ∀ (timers : Registry) (e : Event) (v : FieldValues) (now : Int)
      (td : TimerData),
      lookupTimer timers e.station = some td →
      saveStep timers e v now =
        { promptShown := true, appended := some (mkRow e v now),
          timers := insertTimer timers e.station
            { td with error := anyOff v,
                      done_checks := td.done_checks + 1 },
          lockReleased := true, crashed := false } := by
  constructor
  · intro a; cases a <;> rfl
  · intro timers e v now td h
    simp [saveStep, h]

/-- Claim C10 witness: closing the review window for the sample event
commits the record and bumps done_checks of the sample timer. -/
theorem c10_witness :
    reviewHandler ReviewAction.closeWindow = saveStep ∧
    saveStep [(3, sampleTimer)] sampleEvent sampleVals 21 =
      { promptShown := true,
        appended := some (mkRow sampleEvent sampleVals 21),
        timers := insertTimer [(3, sampleTimer)] sampleEvent.station
          { sampleTimer with error := anyOff sampleVals,
                             done_checks := sampleTimer.done_checks + 1 },
        lockReleased := true, crashed := false } :=
  ⟨c10_close_commits.1 ReviewAction.closeWindow,
   c10_close_commits.2 [(3, sampleTimer)] sampleEvent sampleVals 21
     sampleTimer (by decide)⟩

/-- Semaphore accounting: in every reachable serializer state the free
token count plus the number of interacting flows is exactly one, and the
enqueue log splits into the dequeue log followed by the current queue. -/
theorem serInvariant {s : SerState} (h : SerReach s) :
    s.sem + interCount s.flows = 1 ∧ s.enqueued = s.dequeued ++ s.queue := by
  induction h with
  | init => exact ⟨rfl, rfl⟩
  | step hr hs ih =>
      cases hs with
      | enqueue e =>
          exact ⟨ih.1, by simp [ih.2]⟩
      | dequeue e rest hq =>
          refine ⟨?_, ?_⟩
          · have hcnt : ∀ fl : List (Event × Phase),
                interCount (fl ++ [(e, Phase.waiting)]) = interCount fl := by
              intro fl
              simp [interCount, List.countP_append, List.countP_cons, isInter]
            simpa [hcnt] using ih.1
          · have h2 := ih.2
            rw [hq] at h2
            simp [h2]
      | acquire l r e hsem hfl =>
          refine ⟨?_, by simpa using ih.2⟩
          have h1 := ih.1
          rw [hfl] at h1
          simp [interCount, List.countP_append, List.countP_cons,
            isInter] at h1 ⊢
          omega
      | release l r e hfl =>
          refine ⟨?_, by simpa using ih.2⟩
          have h1 := ih.1
          rw [hfl] at h1
          simp [interCount, List.countP_append, List.countP_cons,
            isInter] at h1 ⊢
          omega

/-- Claim C5 counterexample: the claim says queued events are served
strictly in enqueue order. In the code each dequeued event is handed to a
freshly spawned thread that then contends for the semaphore, so the OS
scheduler may let a later event's thread acquire first: the trace below
enqueues evA then evB, the consumer dequeues both in order, and evB's flow
is served before evA's. -/
theorem c5_service_order_not_fifo :
    SerReach c5s7 ∧ c5s7.enqueued = [evA, evB] ∧ c5s7.served = [evB, evA] := by
  refine ⟨?_, rfl, rfl⟩
  have h0 : SerReach initSer := SerReach.init
  have h1 : SerReach c5s1 := SerReach.step h0 (SerStep.enqueue initSer evA)
  have h2 : SerReach c5s2 := SerReach.step h1 (SerStep.enqueue c5s1 evB)
  have h3 : SerReach c5s3 :=
    SerReach.step h2 (SerStep.dequeue c5s2 evA [evB] rfl)
  have h4 : SerReach c5s4 :=
    SerReach.step h3 (SerStep.dequeue c5s3 evB [] rfl)
  have h5 : SerReach c5s5 :=
    SerReach.step h4
      (SerStep.acquire c5s4 [(evA, Phase.waiting)] [] evB (by decide) rfl)
  have h6 : SerReach c5s6 :=
    SerReach.step h5
      (SerStep.release c5s5 [(evA, Phase.waiting)] [] evB rfl)
  exact SerReach.step h6 (SerStep.acquire c5s6 [] [] evA (by decide) rfl)

/-- Claim C5 amended: in every reachable state at most one flow is in the
interactive verify/capture/review/commit section (a new flow can acquire
the semaphore only after the prior one releases it), and events are
dequeued by the single consumer exactly in enqueue order; but the order in
which the dequeued flows acquire the semaphore — the service order — is
not constrained to match the enqueue order. -/
theorem c5_amended_mutex (s : SerState) (h : SerReach s) :
    interCount s.flows ≤ 1 ∧ s.enqueued = s.dequeued ++ s.queue := by
  have hi := serInvariant h
  exact ⟨by omega, hi.2⟩

/-- Claim C5 witness: the invariant holds in the initial state. -/
theorem c5_witness :
    interCount initSer.flows ≤ 1 ∧
    initSer.enqueued = initSer.dequeued ++ initSer.queue :=
  c5_amended_mutex initSer SerReach.init

/-- Claim C7 amended: after every completed check, the timer's error flag
equals whether THAT check reported a fault (a designated binary-safety
field equal to OFF) — the flag is overwritten at each commit, so a fault
on an earlier check does not persist through a later fault-free check. -/
theorem c7_amended_error_overwritten (timers : Registry) (e : Event)
    (serialIn : String) (v : FieldValues) (now : Int) (td : TimerData)
    (h : lookupTimer timers e.station = some td)
    (hs : serialIn = e.serial) :
    lookupTimer (runFlow timers e serialIn v now).timers e.station =
      some { td with error := anyOff v,
                     done_checks := td.done_checks + 1 } := by
  subst hs
  simp [runFlow, saveStep, h, lookupTimer_insertTimer]

/-- Claim C7 witness: completing the sample event's check with Control
Light OFF stores the timer with the error flag set and done_checks
bumped. -/
theorem c7_witness :
    lookupTimer
        (runFlow [(3, sampleTimer)] sampleEvent "SN1" valsOff 21).timers
        sampleEvent.station =
      some { sampleTimer with error := anyOff valsOff,
                              done_checks := sampleTimer.done_checks + 1 } :=
  c7_amended_error_overwritten [(3, sampleTimer)] sampleEvent "SN1" valsOff
    21 sampleTimer (by decide) (by decide)

/-- A character accepted by the digit validator is not a sign
character. -/
theorem isDigit_not_sign {c : Char} (h : c.isDigit = true) :
    ¬(c = '+' ∨ c = '-') := by
  rintro (rfl | rfl) <;> exact absurd h (by decide)

/-- The validator guarantees an all-digit content of length at most
two. -/
theorem validDigitList_spec (l : List Char) (h : validDigitList l = true) :
    l.all Char.isDigit = true ∧ l.length ≤ 2 := by
  unfold validDigitList at h
  simp only [Bool.or_eq_true, Bool.and_eq_true, decide_eq_true_eq] at h
  rcases h with ⟨⟨-, h2⟩, h3⟩ | h4
  · exact ⟨h2, h3⟩
  · subst h4; exact ⟨rfl, by decide⟩

/-- Zero-filling a validated part to width two yields exactly two digit
characters. -/
theorem zfillList_two (l : List Char) (hd : l.all Char.isDigit = true)
    (hl : l.length ≤ 2) :
    ∃ a b, zfillList l 2 = [a, b] ∧ a.isDigit = true ∧ b.isDigit = true := by
  match l, hd, hl with
  | [], _, _ => exact ⟨'0', '0', rfl, by decide, by decide⟩
  | [c], hd, _ =>
      have hc : c.isDigit = true := by simpa using hd
      refine ⟨'0', c, ?_, by decide, hc⟩
      unfold zfillList
      simp [isDigit_not_sign hc]
  | [c1, c2], hd, _ =>
      have h1 : c1.isDigit = true := by
        simp only [List.all_cons, Bool.and_eq_true] at hd; exact hd.1
      have h2 : c2.isDigit = true := by
        simp only [List.all_cons, Bool.and_eq_true] at hd; exact hd.2.1
      refine ⟨c1, c2, ?_, h1, h2⟩
      unfold zfillList
      simp
  | c1 :: c2 :: c3 :: rest, _, hl =>
      simp only [List.length_cons] at hl; omega

/-- A numeric cell built from two validated parts has the zero-padded
two-digit NN.NN shape. -/
theorem isNNNN_formatDigit (w f : String) (hw : validDigit w = true)
    (hf : validDigit f = true) : isNNNN (formatDigit w f) = true := by
  obtain ⟨hw1, hw2⟩ := validDigitList_spec w.data hw
  obtain ⟨hf1, hf2⟩ := validDigitList_spec f.data hf
  obtain ⟨a, b, hab, ha, hb⟩ := zfillList_two w.data hw1 hw2
  obtain ⟨c, d, hcd, hc, hd⟩ := zfillList_two f.data hf1 hf2
  show isNNNNList (zfillList w.data 2 ++ '.' :: zfillList f.data 2) = true
  rw [hab, hcd]
  show isNNNNList [a, b, '.', c, d] = true
  simp [isNNNNList, ha, hb, hc, hd]

/-- Claim C9 counterexample: the claim says every persisted numeric cell
is a zero-padded two-digit NN.NN string for all values the operator can
enter through the capture and review steps. The review-step numeric
widgets are unvalidated plain entries, so the operator can replace a part
with "abc" there; the committed row then persists the cell "abc.00",
which is not of NN.NN shape (the capture validator would have rejected
"abc"). -/
theorem c9_review_escapes_format :
    reviewEntryAccepts "abc" = true ∧ validDigit "abc" = false ∧
    (mkRow sampleEvent badVals 21).cells.head? = some "abc.00" ∧
    isNNNN "abc.00" = false := by
  refine ⟨rfl, by decide, by decide, by decide⟩

/-- Claim C9 amended: toggle cells are always exactly ON or OFF (the
review combobox is read-only over those two values, and the capture
default is ON), and every numeric cell whose two parts satisfy the
capture-step validator (digits-only, at most two characters — guaranteed
whenever the operator does not edit the pre-filled review entries) is
persisted as a zero-padded two-digit NN.NN string. -/
theorem c9_amended_valid_parts (v : FieldValues)
    (h1 : validDigit v.voltage.1 = true) (h2 : validDigit v.voltage.2 = true)
    (h3 : validDigit v.current.1 = true) (h4 : validDigit v.current.2 = true)
    (h5 : validDigit v.clamp.1 = true) (h6 : validDigit v.clamp.2 = true)
    (h7 : validDigit v.temperature.1 = true)
    (h8 : validDigit v.temperature.2 = true)
    (h9 : reviewToggleAccepts v.controlLight = true)
    (h10 : reviewToggleAccepts v.loadBankLight = true) :
    ((fieldCells v).take 4).all isNNNN = true ∧
    ((fieldCells v).drop 4).all reviewToggleAccepts = true ∧
    toggleDefault = "ON" := by
  refine ⟨?_, ?_, rfl⟩
  · show ([formatDigit v.voltage.1 v.voltage.2,
          formatDigit v.current.1 v.current.2,
          formatDigit v.clamp.1 v.clamp.2,
          formatDigit v.temperature.1 v.temperature.2]).all isNNNN = true
    simp [List.all_cons, isNNNN_formatDigit v.voltage.1 v.voltage.2 h1 h2,
      isNNNN_formatDigit v.current.1 v.current.2 h3 h4,
      isNNNN_formatDigit v.clamp.1 v.clamp.2 h5 h6,
      isNNNN_formatDigit v.temperature.1 v.temperature.2 h7 h8]
  · show ([v.controlLight, v.loadBankLight]).all reviewToggleAccepts = true
    simp [List.all_cons, h9, h10]

/-- Claim C9 witness: the section-8 sample values, all parts validated,
produce four NN.NN numeric cells and two ON/OFF toggle cells. -/
theorem c9_witness :
    ((fieldCells sampleVals).take 4).all isNNNN = true ∧
    ((fieldCells sampleVals).drop 4).all reviewToggleAccepts = true ∧
    toggleDefault = "ON" :=
  c9_amended_valid_parts sampleVals (by decide) (by decide) (by decide)
    (by decide) (by decide) (by decide) (by decide) (by decide) (by decide)
    (by decide)

end ScanSoftware
